import Mathlib

/-!
Shallow embedding of `src/app.py` (WhatsApp lead-intake webhook).

The database state relevant to one `(company_id, phone)` pair is modelled by
`App.World`: the `customers` row, the `conversations` row (whose `quote_id`
foreign key is modelled as the joined `quotes` row, `Conv.quote`), and the
running maximum of `quote_number` for this phone.  `webhook_receive` embeds the
body of the `POST /webhook/{company_id}` handler from the point where
`extract_whatsapp_message` has succeeded: it threads the state updates that the
Python code performs through SQL, records every `log_message` call in order,
and returns `Except.error` exactly on the paths where the Python handler
raises (`get_company` 404, `load_quote` 500, `customer.get` on `None`).
The Google Sheets append is the one external effect; whether it succeeds is an
oracle bit `Config.exportOk`.
-/

namespace App

/-- Row of the `customers` table (fields used by the handler). -/
structure Customer where
  nome : String
  email : String
  cep_padrao : String
  deriving Repr, DecidableEq

/-- Row of the `quotes` table (fields used by the handler; timestamps omitted). -/
structure Quote where
  quote_number : Nat
  produto : String
  cep_usado : String
  cep_alterado : Bool
  salvou_cep_padrao : Bool
  status : String
  deriving Repr, DecidableEq

/-- Row of the `conversations` table; `quote` models the `quote_id` column as
the joined `quotes` row (the FK is `on delete set null`, so a non-null
`quote_id` always resolves). -/
structure Conv where
  step : String
  quote : Option Quote
  deriving Repr, DecidableEq

/-- Database state for one `(company_id, phone)` pair. -/
structure World where
  customer : Option Customer
  conv : Option Conv
  last_quote_number : Nat
  deriving Repr, DecidableEq

/-- Row of the `companies` table (fields used by the handler). -/
structure Company where
  sheet_id : String
  sheet_tab : String
  deriving Repr, DecidableEq

/-- Process environment: `GSHEET_ID`, `GOOGLE_SERVICE_ACCOUNT_B64`, and the
oracle telling whether `append_to_sheets` succeeds when called. -/
structure Config where
  default_sheet_id : String
  google_sa_b64 : String
  exportOk : Bool
  deriving Repr, DecidableEq

/-- Payload of a normal (HTTP 200) handler return: the `reply` field, the
database state afterwards, the `export` field of the JSON response, and the
row appended to the spreadsheet if the append succeeded. -/
structure Handled where
  reply : String
  world : World
  exportStatus : Option String
  exported : Option (List String)
  deriving Repr, DecidableEq

/-- Result of one handler invocation: a normal return, or the message of the
exception the handler raised. -/
inductive HandlerRes where
  | ok : Handled → HandlerRes
  | error : String → HandlerRes
  deriving Repr, DecidableEq

/-- Full observable outcome of one handler invocation: the rows inserted into
`messages` (direction, text) in order, and either a normal return or the
message of the exception the handler raised. -/
structure Outcome where
  log : List (String × String)
  res : HandlerRes
  deriving Repr, DecidableEq

/-! ## Python string primitives

The handler relies on `str.strip()` and `str.lower()`.  They are modelled
list-wise so that every definition evaluates inside the kernel (Lean's
`String.trim`/`String.toLower` are defined by well-founded recursion over
byte positions and do not reduce).  `py_lower` lowercases ASCII letters,
matching `Char.toLower`. -/

/-- Model of Python `str.strip()`: drop whitespace from both ends. -/
def py_strip (s : String) : String :=
  String.mk (((s.toList.dropWhile Char.isWhitespace).reverse.dropWhile
    Char.isWhitespace).reverse)

/-- Model of Python `str.lower()` (ASCII lowering). -/
def py_lower (s : String) : String := String.mk (s.toList.map Char.toLower)

/-! ## Validation helpers (`src/app.py` lines 194–213) -/

/-- Embeds `_is_valid_email`: `"@" in s and "." in s and len(s) >= 6`
after stripping. -/
def _is_valid_email (s : String) : Bool :=
  let s := py_strip s
  s.toList.contains '@' && s.toList.contains '.' && decide (6 ≤ s.length)

/-- Embeds `_normalize_cep`: keep the digit characters; if exactly 8 remain,
hyphenate as `ddddd-ddd`, else return `""`. -/
def _normalize_cep (s : String) : String :=
  let digits := s.toList.filter Char.isDigit
  if digits.length = 8 then String.mk (digits.take 5) ++ "-" ++ String.mk (digits.drop 5)
  else ""

/-- Embeds `_is_yes`. -/
def _is_yes (s : String) : Bool :=
  let s := py_lower (py_strip s)
  ["sim", "s", "1", "ok", "yes", "y", "claro"].contains s

/-- Embeds `_is_no`. -/
def _is_no (s : String) : Bool :=
  let s := py_lower (py_strip s)
  ["nao", "não", "n", "2", "no"].contains s

/-- Greeting keyword set from `webhook_receive` (line 562). -/
def greetings : List String :=
  ["oi", "olá", "ola", "bom dia", "boa tarde", "boa noite", "hello", "hi",
   "orçamento", "orcamento"]

/-- Embeds `customer_is_complete` (truthiness of the three stripped fields;
`None` is incomplete). -/
def customer_is_complete : Option Customer → Bool
  | none => false
  | some c => py_strip c.nome != "" && py_strip c.email != "" && py_strip c.cep_padrao != ""

/-! ## Reply templates (string literals of `webhook_receive`) -/

/-- Reply asking the name. -/
def replyAskName : String := "Qual é o seu nome?"

/-- Reply greeting a brand-new sender who opened with a greeting keyword. -/
def replyHelloAskName : String := "Olá! 👋 Tudo bem? Qual é o seu nome?"

/-- Reply greeting a returning customer with a complete profile. -/
def replyGreetReturning (nome : String) : String :=
  s!"Olá, {nome}! 👋 Qual produto você quer orçar agora?"

/-- Reply after a successful re-export of a pending quote. -/
def replyPendingOk : String :=
  "✅ Pronto! Consegui registrar seu orçamento agora. Um vendedor vai te chamar em breve."

/-- Reply after a failed re-export of a pending quote. -/
def replyPendingFail : String :=
  "Ainda estou com dificuldade para registrar no sistema 😅 Tente novamente em instantes."

/-- Reply acknowledging the name. -/
def replyPrazer (nome : String) : String := s!"Prazer, {nome}! Qual é o seu e-mail?"

/-- Corrective reply for an invalid email. -/
def replyEmailInvalid : String := "Esse e-mail parece inválido 😅 Pode enviar novamente?"

/-- Reply after a valid email. -/
def replyEmailOk : String := "Perfeito! Qual produto você tem interesse?"

/-- Product prompt for a complete customer. -/
def replyAskProductNamed (nome : String) : String :=
  s!"Qual produto você quer orçar agora, {nome}?"

/-- Generic product prompt. -/
def replyAskProduct : String := "Qual produto você tem interesse?"

/-- Default-CEP confirmation prompt. -/
def replyCepConfirm (cep : String) : String :=
  s!"Perfeito! Seu CEP padrão é *{cep}*.\nResponda *1* para confirmar ou envie um *novo CEP* (apenas números)."

/-- CEP request prompt. -/
def replyAskCep : String :=
  "Boa! Agora me envie seu CEP (apenas números) pra eu preparar a oferta certinha."

/-- Reply when the stored default CEP turns out to be blank. -/
def replyNoDefaultCep : String :=
  "Não achei seu CEP padrão aqui 😅 Envie seu CEP (apenas números)."

/-- Corrective reply for an invalid CEP at the confirmation step. -/
def replyCepInvalidConfirm : String :=
  "CEP inválido. Envie apenas números (8 dígitos) ou responda 1 para usar o CEP padrão."

/-- Prompt asking whether to save the new CEP as default. -/
def replyCepSaveAsk (cep : String) : String :=
  s!"Beleza! Vou usar o CEP *{cep}* nesse orçamento.\nQuer salvar esse CEP como *padrão* para próximos orçamentos? (sim/não)"

/-- Corrective reply for an invalid CEP at the `cep` step. -/
def replyCepInvalid : String := "CEP inválido. Envie apenas números (8 dígitos)."

/-- Corrective reply at the `cep_save` step. -/
def replyYesOrNo : String :=
  "Responda *sim* ou *não*: quer salvar esse CEP como padrão?"

/-- Reply of the `export_retry` fallback when required data is missing. -/
def replyContinue : String := "Vamos continuar 🙂 Qual produto você quer orçar?"

/-- Completion reply after a (DB-only or exported) finalization. -/
def replyDone (nome produto : String) : String :=
  s!"Fechado, {nome} ✅\nJá registrei seu interesse em *{produto}*.\nUm vendedor vai te chamar em breve com uma oferta preparada pra você."

/-- Reply when the sheet export fails at the `export_retry` step. -/
def replyExportFail : String :=
  "Quase lá ✅\nTive um problema ao registrar seu orçamento no sistema.\nPode me mandar qualquer mensagem daqui a pouco que eu tento de novo automaticamente."

/-- Reply of the final safety fallback (line 846–850). -/
def replyFallback : String := "Vamos seguir 🙂 Qual produto você quer orçar?"

/-! ## Sheet row and small state helpers -/

/-- Customer used when `get_customer(...) or {}` yields the empty dict. -/
def emptyCustomer : Customer := { nome := "", email := "", cep_padrao := "" }

/-- Embeds `str(quote.get("quote_number") or 1)` (0 is falsy in Python). -/
def quote_number_str (n : Nat) : String := toString (if n = 0 then 1 else n)

/-- The 13-column row appended to the spreadsheet (columns A:M). -/
def sheet_row (company_id phone now_iso is_returning : String)
    (c : Customer) (q : Quote) : List String :=
  [now_iso, company_id, phone, is_returning, quote_number_str q.quote_number,
   c.nome, c.email, q.produto, q.cep_usado, c.cep_padrao,
   if q.cep_alterado then "true" else "false",
   if q.salvou_cep_padrao then "true" else "false",
   "completed"]

/-- Embeds `company.get("sheet_id") or DEFAULT_SHEET_ID`. -/
def resolved_sheet_id (cfg : Config) (co : Company) : String :=
  if co.sheet_id = "" then cfg.default_sheet_id else co.sheet_id

/-- Embeds the truthiness test `if sheet_id and GOOGLE_SA_B64:`. -/
def sheets_configured (cfg : Config) (co : Company) : Bool :=
  resolved_sheet_id cfg co != "" && cfg.google_sa_b64 != ""

/-- Embeds `reset_conversation`: `update conversations set step='produto',
quote_id=null where ...` (an UPDATE, so it only affects an existing row). -/
def reset_conversation (w : World) : World :=
  { w with conv := w.conv.map (fun _ => { step := "produto", quote := none }) }

/-- Embeds the final safety fallback (lines 846–850): `update_conversation`
with `step="produto"` only (the quote link is kept), then the fallback reply. -/
def fallback_return (w : World) (text : String) : Outcome :=
  let w := { w with conv := w.conv.map (fun c => { c with step := "produto" }) }
  ⟨[("in", text), ("out", replyFallback)], .ok ⟨replyFallback, w, none, none⟩⟩

/-! ## Step dispatch (lines 642–850) -/

/-- Step dispatch of `webhook_receive` after the pending-export check.
`conv` is the value of `w.conv`; `text` is the stripped inbound text and
`lower` its lowercasing.  The Python local variable `step` is read once
(line 593) and never reassigned, so the branches that update the conversation
and "fall through" (`# cai para export`) never match the later
`if step == ...` tests; they reach the final safety fallback instead.  The
embedding therefore calls `fallback_return` directly at those points. -/
def dispatch (cfg : Config) (company_id phone now_iso : String) (co : Company)
    (w : World) (conv : Conv) (text lower : String) : Outcome :=
  let logIn : List (String × String) := [("in", text)]
  let ret : String → World → Option String → Option (List String) → Outcome :=
    fun reply w' es ex => ⟨logIn ++ [("out", reply)], .ok ⟨reply, w', es, ex⟩⟩
  if conv.step = "nome" then
    if text = "" ∨ lower ∈ greetings then
      ret replyAskName w none none
    else
      -- upsert_customer stores the inbound text verbatim as `nome`
      let c : Customer :=
        match w.customer with
        | none => { nome := text, email := "", cep_padrao := "" }
        | some c0 => { nome := text, email := c0.email, cep_padrao := c0.cep_padrao }
      let w := { w with customer := some c, conv := some { conv with step := "email" } }
      ret (replyPrazer c.nome) w none none
  else if conv.step = "email" then
    if !_is_valid_email text then
      ret replyEmailInvalid w none none
    else
      let c : Customer :=
        match w.customer with
        | none => { nome := "", email := text, cep_padrao := "" }
        | some c0 => { nome := c0.nome, email := text, cep_padrao := c0.cep_padrao }
      let w := { w with customer := some c, conv := some { conv with step := "produto" } }
      ret replyEmailOk w none none
  else if conv.step = "produto" then
    if text = "" ∨ lower ∈ greetings then
      match w.customer with
      | some c =>
        if customer_is_complete (some c) then ret (replyAskProductNamed c.nome) w none none
        else ret replyAskProduct w none none
      | none => ret replyAskProduct w none none
    else
      let q' := conv.quote.map (fun q => { q with produto := text })
      match w.customer with
      | some c =>
        if py_strip c.cep_padrao != "" then
          let w := { w with conv := some { conv with step := "cep_confirm", quote := q' } }
          ret (replyCepConfirm c.cep_padrao) w none none
        else
          let w := { w with conv := some { conv with step := "cep", quote := q' } }
          ret replyAskCep w none none
      | none =>
        let w := { w with conv := some { conv with step := "cep", quote := q' } }
        ret replyAskCep w none none
  else if conv.step = "cep_confirm" then
    if _is_yes text || py_strip text = "1" then
      match w.customer with
      | none =>
        -- `customer.get("cep_padrao")` on None: uncaught AttributeError
        ⟨logIn, .error "AttributeError"⟩
      | some c =>
        let cep_usado := py_strip c.cep_padrao
        if cep_usado = "" then
          ret replyNoDefaultCep { w with conv := some { conv with step := "cep" } } none none
        else
          let q' := conv.quote.map (fun q => { q with cep_usado := cep_usado, cep_alterado := false })
          let w := { w with conv := some { conv with step := "export_retry", quote := q' } }
          -- `# cai para export`: stale local step, falls to the safety fallback
          fallback_return w text
    else
      let cep := _normalize_cep text
      if cep = "" then
        ret replyCepInvalidConfirm w none none
      else
        let q' := conv.quote.map
          (fun q => { q with cep_usado := cep, cep_alterado := true, salvou_cep_padrao := false })
        let w := { w with conv := some { conv with step := "cep_save", quote := q' } }
        ret (replyCepSaveAsk cep) w none none
  else if conv.step = "cep" then
    let cep := _normalize_cep text
    if cep = "" then
      ret replyCepInvalid w none none
    else
      let c : Customer :=
        match w.customer with
        | none => { nome := "", email := "", cep_padrao := cep }
        | some c0 => { nome := c0.nome, email := c0.email, cep_padrao := cep }
      let q' := conv.quote.map
        (fun q => { q with cep_usado := cep, cep_alterado := false, salvou_cep_padrao := true })
      let w := { w with customer := some c, conv := some { conv with step := "export_retry", quote := q' } }
      -- `# cai para export`: stale local step, falls to the safety fallback
      fallback_return w text
  else if conv.step = "cep_save" then
    if _is_yes text then
      match conv.quote with
      | none =>
        -- `load_quote(None)` finds no row: HTTPException 500
        ⟨logIn, .error "quote não encontrada"⟩
      | some q =>
        let new_cep := q.cep_usado
        let w :=
          if new_cep = "" then w
          else
            { w with
              customer := w.customer.map (fun c => { c with cep_padrao := new_cep }),
              conv := some { conv with quote := some { q with salvou_cep_padrao := true } } }
        let w := { w with conv := w.conv.map (fun c => { c with step := "export_retry" }) }
        -- falls through: stale local step, reaches the safety fallback
        fallback_return w text
    else if _is_no text then
      let w := { w with conv := some { conv with step := "export_retry" } }
      fallback_return w text
    else
      ret replyYesOrNo w none none
  else if conv.step = "export_retry" then
    -- `customer = get_customer(...) or {}`
    let cust := w.customer.getD emptyCustomer
    match conv.quote with
    | none =>
      -- `load_quote(None)` finds no row: HTTPException 500
      ⟨logIn, .error "quote não encontrada"⟩
    | some q =>
      if cust.nome = "" ∨ cust.email = "" ∨ q.produto = "" ∨ q.cep_usado = "" then
        ret replyContinue { w with conv := some { conv with step := "produto" } } none none
      else if !sheets_configured cfg co then
        -- no Sheets configured: finalize in the DB only
        let q' := { q with status := "completed" }
        let w := reset_conversation { w with conv := some { conv with quote := some q' } }
        ret (replyDone cust.nome q.produto) w none none
      else
        let is_returning := if 1 < w.last_quote_number then "true" else "false"
        let row := sheet_row company_id phone now_iso is_returning cust q
        if cfg.exportOk then
          let q' := { q with status := "completed" }
          let w := reset_conversation { w with conv := some { conv with quote := some q' } }
          ret (replyDone cust.nome q.produto) w (some "ok") (some row)
        else
          -- append_to_sheets raised: keep the conversation, mark pending
          let q' := { q with status := "pending_export" }
          let w := { w with conv := some { conv with quote := some q' } }
          ret replyExportFail w (some "failed") none
  else
    fallback_return w text

/-! ## The webhook handler (lines 548–850) -/

/-- Embeds the body of `POST /webhook/{company_id}` from the point where
`extract_whatsapp_message` has returned a message: `text` is stripped, the
company row is fetched (404 if absent, before any logging), the inbound text
is logged, a missing conversation is created (returning-customer or
new-customer flavour), a `pending_export` quote is re-exported before any step
logic, and otherwise the step dispatch runs. -/
def webhook_receive (cfg : Config) (company_id phone now_iso : String)
    (company : Option Company) (w : World) (raw : String) : Outcome :=
  let text := py_strip raw
  match company with
  | none => ⟨[], .error "company_id não encontrado"⟩
  | some co =>
    let lower := py_lower text
    let logIn : List (String × String) := [("in", text)]
    match w.conv with
    | none =>
      if customer_is_complete w.customer then
        match w.customer with
        | some c =>
          let q : Quote :=
            { quote_number := w.last_quote_number + 1, produto := "", cep_usado := "",
              cep_alterado := false, salvou_cep_padrao := false, status := "open" }
          let w := { w with conv := some { step := "produto", quote := some q },
                            last_quote_number := w.last_quote_number + 1 }
          let reply := replyGreetReturning c.nome
          ⟨logIn ++ [("out", reply)], .ok ⟨reply, w, none, none⟩⟩
        | none =>
          -- unreachable: customer_is_complete none = false
          ⟨logIn, .error "AttributeError"⟩
      else
        let q : Quote :=
          { quote_number := w.last_quote_number + 1, produto := "", cep_usado := "",
            cep_alterado := false, salvou_cep_padrao := false, status := "open" }
        let w := { w with conv := some { step := "nome", quote := some q },
                          last_quote_number := w.last_quote_number + 1 }
        let reply := if lower ∈ greetings then replyHelloAskName else replyAskName
        ⟨logIn ++ [("out", reply)], .ok ⟨reply, w, none, none⟩⟩
    | some conv =>
      match conv.quote with
      | some q =>
        if q.status = "pending_export" then
          if sheets_configured cfg co then
            if cfg.exportOk then
              let cust := w.customer.getD emptyCustomer
              let row := sheet_row company_id phone now_iso "true" cust q
              let w := reset_conversation
                { w with conv := some { conv with quote := some { q with status := "completed" } } }
              ⟨logIn ++ [("out", replyPendingOk)], .ok ⟨replyPendingOk, w, some "ok", some row⟩⟩
            else
              ⟨logIn ++ [("out", replyPendingFail)],
                .ok ⟨replyPendingFail, w, some "failed", none⟩⟩
          else
            -- `if sheet_id and GOOGLE_SA_B64:` false: no return, step dispatch runs
            dispatch cfg company_id phone now_iso co w conv text lower
        else
          dispatch cfg company_id phone now_iso co w conv text lower
      | none =>
        dispatch cfg company_id phone now_iso co w conv text lower

/-! ## Helper lemmas -/

-- When the linked quote is not pending export, the handler is exactly the
-- step dispatch (the pending-export block cannot fire).
lemma receive_eq_dispatch (cfg : Config) (cid ph now : String) (co : Company)
    (w : World) (conv : Conv) (raw : String)
    (hc : w.conv = some conv)
    (hq : ∀ q, conv.quote = some q → q.status ≠ "pending_export") :
    webhook_receive cfg cid ph now (some co) w raw
      = dispatch cfg cid ph now co w conv (py_strip raw) (py_lower (py_strip raw)) := by
  cases hcq : conv.quote with
  | none => simp only [webhook_receive, hc, hcq]
  | some q => simp only [webhook_receive, hc, hcq, hq q hcq, ite_false, if_neg]

-- The personalized product prompt is never the empty string.
lemma replyAskProductNamed_ne_empty (n : String) : replyAskProductNamed n ≠ "" := by
  intro h
  have h2 := congrArg String.length h
  simp [replyAskProductNamed, String.length_append, toString] at h2
  exact absurd h2.1.1 (by decide)

-- Evaluation of the email-step branches of the dispatch.
lemma dispatch_email_invalid (cfg : Config) (cid ph now : String) (co : Company)
    (w : World) (conv : Conv) (text lower : String)
    (hs : conv.step = "email") (hv : _is_valid_email text = false) :
    dispatch cfg cid ph now co w conv text lower
      = ⟨[("in", text), ("out", replyEmailInvalid)],
         .ok ⟨replyEmailInvalid, w, none, none⟩⟩ := by
  simp only [dispatch, hs, hv, String.reduceEq, reduceIte, Bool.not_false,
    Bool.false_eq_true, eq_self_iff_true, if_true, List.singleton_append]

lemma dispatch_email_valid (cfg : Config) (cid ph now : String) (co : Company)
    (w : World) (conv : Conv) (text lower : String)
    (hs : conv.step = "email") (hv : _is_valid_email text = true) :
    dispatch cfg cid ph now co w conv text lower
      = ⟨[("in", text), ("out", replyEmailOk)],
         .ok ⟨replyEmailOk,
              { customer := some (match w.customer with
                  | none => { nome := "", email := text, cep_padrao := "" }
                  | some c0 => { nome := c0.nome, email := text, cep_padrao := c0.cep_padrao }),
                conv := some { conv with step := "produto" },
                last_quote_number := w.last_quote_number },
              none, none⟩⟩ := by
  simp only [dispatch, hs, hv, String.reduceEq, reduceIte, Bool.not_true,
    Bool.false_eq_true, eq_self_iff_true, if_false, List.singleton_append]

/-! ## Claim C1 -/

/-- Collecting steps of the questionnaire (the states with input validation). -/
def collecting_steps : List String :=
  ["nome", "email", "produto", "cep_confirm", "cep", "cep_save"]

/-- Input (already stripped) that fails the given collecting step's
validation, read off the step branches of `webhook_receive`. -/
def invalid_for (step text : String) : Prop :=
  ((step = "nome" ∨ step = "produto") ∧ (text = "" ∨ py_lower text ∈ greetings))
  ∨ (step = "email" ∧ _is_valid_email text = false)
  ∨ (step = "cep_confirm" ∧ _is_yes text = false ∧ py_strip text ≠ "1"
      ∧ _normalize_cep text = "")
  ∨ (step = "cep" ∧ _normalize_cep text = "")
  ∨ (step = "cep_save" ∧ _is_yes text = false ∧ _is_no text = false)

/-- C1: at every collecting step, an input that fails that step's validation
leaves the database state (step and all stored answers) unchanged, logs and
returns a corrective reply, and raises no exception. -/
theorem C1_invalid_input_no_forward_progress (cfg : Config) (cid ph now : String)
    (co : Company) (w : World) (conv : Conv) (raw : String)
    (hc : w.conv = some conv)
    (hq : ∀ q, conv.quote = some q → q.status ≠ "pending_export")
    (hstep : conv.step ∈ collecting_steps)
    (hinv : invalid_for conv.step (py_strip raw)) :
    ∃ r : Handled,
      (webhook_receive cfg cid ph now (some co) w raw).res = .ok r
      ∧ r.world = w
      ∧ (webhook_receive cfg cid ph now (some co) w raw).log
          = [("in", py_strip raw), ("out", r.reply)]
      ∧ r.reply ≠ "" := by
  rw [receive_eq_dispatch cfg cid ph now co w conv raw hc hq]
  simp only [collecting_steps, List.mem_cons, List.not_mem_nil, or_false] at hstep
  rcases hstep with hs | hs | hs | hs | hs | hs
  · -- step "nome"
    simp only [invalid_for, hs, String.reduceEq] at hinv
    simp at hinv
    simp only [dispatch, hs, String.reduceEq, reduceIte]
    rw [if_pos hinv]
    exact ⟨_, rfl, rfl, rfl, by show replyAskName ≠ ""; decide⟩
  · -- step "email"
    simp only [invalid_for, hs, String.reduceEq] at hinv
    simp at hinv
    simp only [dispatch, hs, String.reduceEq, reduceIte]
    rw [if_pos (by simp [hinv])]
    exact ⟨_, rfl, rfl, rfl, by show replyEmailInvalid ≠ ""; decide⟩
  · -- step "produto"
    simp only [invalid_for, hs, String.reduceEq] at hinv
    simp at hinv
    simp only [dispatch, hs, String.reduceEq, reduceIte]
    rw [if_pos hinv]
    cases hcu : w.customer with
    | none => exact ⟨_, rfl, rfl, rfl, by show replyAskProduct ≠ ""; decide⟩
    | some c =>
      simp only []
      by_cases hcc : customer_is_complete (some c) = true
      · rw [if_pos hcc]
        exact ⟨_, rfl, rfl, rfl, replyAskProductNamed_ne_empty c.nome⟩
      · rw [if_neg hcc]
        exact ⟨_, rfl, rfl, rfl, by show replyAskProduct ≠ ""; decide⟩
  · -- step "cep_confirm"
    simp only [invalid_for, hs, String.reduceEq] at hinv
    simp at hinv
    simp only [dispatch, hs, String.reduceEq, reduceIte]
    rw [if_neg (by simp [hinv.1, hinv.2.1])]
    rw [if_pos hinv.2.2]
    exact ⟨_, rfl, rfl, rfl, by show replyCepInvalidConfirm ≠ ""; decide⟩
  · -- step "cep"
    simp only [invalid_for, hs, String.reduceEq] at hinv
    simp at hinv
    simp only [dispatch, hs, String.reduceEq, reduceIte]
    rw [if_pos hinv]
    exact ⟨_, rfl, rfl, rfl, by show replyCepInvalid ≠ ""; decide⟩
  · -- step "cep_save"
    simp only [invalid_for, hs, String.reduceEq] at hinv
    simp at hinv
    simp only [dispatch, hs, String.reduceEq, reduceIte]
    rw [if_neg (by simp [hinv.1])]
    rw [if_neg (by simp [hinv.2])]
    exact ⟨_, rfl, rfl, rfl, by show replyYesOrNo ≠ ""; decide⟩

/-- Witness for C1: the invalid 5-digit postal code "12345" at the `cep` step
changes nothing and yields the corrective reply. -/
theorem C1_invalid_input_no_forward_progress_witness :
    ∃ r : Handled,
      (webhook_receive ⟨"SHEET", "SA", true⟩ "c" "p" "t"
          (some ⟨"", "Página1"⟩)
          ⟨some ⟨"Maria", "m@x.com", ""⟩,
           some ⟨"cep", some ⟨1, "iPhone", "", false, false, "open"⟩⟩, 1⟩
          "12345").res = .ok r
      ∧ r.world = ⟨some ⟨"Maria", "m@x.com", ""⟩,
           some ⟨"cep", some ⟨1, "iPhone", "", false, false, "open"⟩⟩, 1⟩
      ∧ (webhook_receive ⟨"SHEET", "SA", true⟩ "c" "p" "t"
          (some ⟨"", "Página1"⟩)
          ⟨some ⟨"Maria", "m@x.com", ""⟩,
           some ⟨"cep", some ⟨1, "iPhone", "", false, false, "open"⟩⟩, 1⟩
          "12345").log = [("in", "12345"), ("out", r.reply)]
      ∧ r.reply ≠ "" :=
  C1_invalid_input_no_forward_progress ⟨"SHEET", "SA", true⟩ "c" "p" "t"
    ⟨"", "Página1"⟩
    ⟨some ⟨"Maria", "m@x.com", ""⟩,
     some ⟨"cep", some ⟨1, "iPhone", "", false, false, "open"⟩⟩, 1⟩
    ⟨"cep", some ⟨1, "iPhone", "", false, false, "open"⟩⟩ "12345"
    rfl (by intro q h; rw [Option.some.injEq] at h; subst h; decide)
    (by decide) (by right; right; right; left; exact ⟨rfl, by decide⟩)

/-! ## Claim C2 -/

/-- C2 counterexample: with a conversation at the `email` step and stored
answers present, the inbound text "reset" does not clear the answers and does
not move the conversation to an initial state: it is handled as an ordinary
(invalid) email and everything stays put.  This falsifies the claim that a
reset keyword clears `answers` and returns to the initial state. -/
theorem C2_counterexample :
    ∃ r : Handled,
      (webhook_receive ⟨"SHEET", "SA", true⟩ "c" "p" "t" (some ⟨"", "Página1"⟩)
        ⟨some ⟨"Maria", "m@x.com", "01001-000"⟩,
         some ⟨"email", some ⟨1, "", "", false, false, "open"⟩⟩, 1⟩ "reset").res = .ok r
      ∧ r.world.conv = some ⟨"email", some ⟨1, "", "", false, false, "open"⟩⟩
      ∧ r.world.customer = some ⟨"Maria", "m@x.com", "01001-000"⟩
      ∧ r.reply = replyEmailInvalid := by
  exact ⟨_, rfl, rfl, rfl, rfl⟩

/-- C2 amended: the handler has no reset-keyword interrupt.  A normalized
"reset"/"restart"/"menu" message at a collecting step (here: the email step)
is handled by that step's ordinary validation — nothing is cleared and the
state does not change.  The only reset in the code, `reset_conversation`,
runs after a successful hand-off; it moves the step to "produto" and clears
the quote link but leaves the stored customer answers intact. -/
theorem C2_no_reset_keyword_handling (cfg : Config) (cid ph now : String)
    (co : Company) (w : World) (oq : Option Quote) (raw : String)
    (hc : w.conv = some ⟨"email", oq⟩)
    (hq : ∀ q, oq = some q → q.status ≠ "pending_export")
    (hkw : py_strip raw ∈ ["reset", "restart", "menu"]) :
    (∃ r : Handled,
      (webhook_receive cfg cid ph now (some co) w raw).res = .ok r
      ∧ r.world = w ∧ r.reply = replyEmailInvalid)
    ∧ (∀ w' : World, (reset_conversation w').customer = w'.customer
        ∧ (reset_conversation w').conv = w'.conv.map (fun _ => ⟨"produto", none⟩)) := by
  constructor
  · have hv : _is_valid_email (py_strip raw) = false := by
      simp only [List.mem_cons, List.not_mem_nil, or_false] at hkw
      rcases hkw with h | h | h <;> rw [h] <;> decide
    rw [receive_eq_dispatch cfg cid ph now co w ⟨"email", oq⟩ raw hc hq]
    rw [dispatch_email_invalid cfg cid ph now co w ⟨"email", oq⟩ _ _ rfl hv]
    exact ⟨_, rfl, rfl, rfl⟩
  · intro w'
    exact ⟨rfl, rfl⟩

/-- Witness for the amended C2 at a concrete state and the keyword "reset". -/
theorem C2_no_reset_keyword_handling_witness :
    (∃ r : Handled,
      (webhook_receive ⟨"SHEET", "SA", true⟩ "c" "p" "t" (some ⟨"", "Página1"⟩)
        ⟨some ⟨"Maria", "m@x.com", "01001-000"⟩,
         some ⟨"email", some ⟨1, "", "", false, false, "open"⟩⟩, 1⟩ "menu").res = .ok r
      ∧ r.world = ⟨some ⟨"Maria", "m@x.com", "01001-000"⟩,
         some ⟨"email", some ⟨1, "", "", false, false, "open"⟩⟩, 1⟩
      ∧ r.reply = replyEmailInvalid)
    ∧ (∀ w' : World, (reset_conversation w').customer = w'.customer
        ∧ (reset_conversation w').conv = w'.conv.map (fun _ => ⟨"produto", none⟩)) :=
  C2_no_reset_keyword_handling ⟨"SHEET", "SA", true⟩ "c" "p" "t" ⟨"", "Página1"⟩
    ⟨some ⟨"Maria", "m@x.com", "01001-000"⟩,
     some ⟨"email", some ⟨1, "", "", false, false, "open"⟩⟩, 1⟩
    (some ⟨1, "", "", false, false, "open"⟩) "menu" rfl
    (by intro q h; rw [Option.some.injEq] at h; subst h; decide) (by decide)

/-! ## Claim C5 -/

/-- C5, the code evaluated at the failing input: at the `cep` step the valid
8-digit input "01001000" is accepted and stored in normalized hyphenated form
("01001-000", both as the customer default and as the quote `cep_usado`), and
the invalid 5-digit "12345" is rejected in place with no state change — but on
acceptance the conversation does not advance towards the export hand-off: the
stale local `step` variable makes control fall into the safety fallback,
which sets the step back to "produto" and re-asks the product. -/
theorem C5_cep_acceptance_falls_back_to_produto :
    (∃ r : Handled,
      (webhook_receive ⟨"SHEET", "SA", true⟩ "c" "p" "t" (some ⟨"", "Página1"⟩)
        ⟨some ⟨"Maria", "m@x.com", ""⟩,
         some ⟨"cep", some ⟨1, "iPhone", "", false, false, "open"⟩⟩, 1⟩
        "01001000").res = .ok r
      ∧ r.world.customer = some ⟨"Maria", "m@x.com", "01001-000"⟩
      ∧ r.world.conv = some ⟨"produto", some ⟨1, "iPhone", "01001-000", false, true, "open"⟩⟩
      ∧ r.reply = replyFallback)
    ∧ (∃ r : Handled,
      (webhook_receive ⟨"SHEET", "SA", true⟩ "c" "p" "t" (some ⟨"", "Página1"⟩)
        ⟨some ⟨"Maria", "m@x.com", ""⟩,
         some ⟨"cep", some ⟨1, "iPhone", "", false, false, "open"⟩⟩, 1⟩
        "12345").res = .ok r
      ∧ r.world = ⟨some ⟨"Maria", "m@x.com", ""⟩,
         some ⟨"cep", some ⟨1, "iPhone", "", false, false, "open"⟩⟩, 1⟩
      ∧ r.reply = replyCepInvalid) :=
  ⟨⟨_, rfl, rfl, rfl, rfl⟩, ⟨_, rfl, rfl, rfl⟩⟩

/-! ## Claim C6 -/

/-- C6 counterexample: the explicit "skip" keyword at the email step does not
advance the conversation — it is rejected by `_is_valid_email` (no "@") and
the step re-prompts, falsifying the claim that "skip" advances. -/
theorem C6_counterexample :
    ∃ r : Handled,
      (webhook_receive ⟨"SHEET", "SA", true⟩ "c" "p" "t" (some ⟨"", "Página1"⟩)
        ⟨some ⟨"Maria", "", ""⟩,
         some ⟨"email", some ⟨1, "", "", false, false, "open"⟩⟩, 1⟩ "skip").res = .ok r
      ∧ r.world.conv = some ⟨"email", some ⟨1, "", "", false, false, "open"⟩⟩
      ∧ r.world.customer = some ⟨"Maria", "", ""⟩
      ∧ r.reply = replyEmailInvalid :=
  ⟨_, rfl, rfl, rfl, rfl⟩

/-- C6 amended: at the email step the conversation advances to the product
step exactly when `_is_valid_email` accepts the text (it contains "@" and "."
and has length at least 6 after stripping); there is no "skip" keyword.  On
any other input it re-prompts with the format hint and changes nothing. -/
theorem C6_email_advances_iff_is_valid_email (cfg : Config) (cid ph now : String)
    (co : Company) (w : World) (oq : Option Quote) (raw : String)
    (hc : w.conv = some ⟨"email", oq⟩)
    (hq : ∀ q, oq = some q → q.status ≠ "pending_export") :
    ∃ r : Handled,
      (webhook_receive cfg cid ph now (some co) w raw).res = .ok r
      ∧ ((∃ oq', r.world.conv = some ⟨"produto", oq'⟩) ↔ _is_valid_email (py_strip raw) = true)
      ∧ (_is_valid_email (py_strip raw) = false →
          r.world = w ∧ r.reply = replyEmailInvalid) := by
  rw [receive_eq_dispatch cfg cid ph now co w ⟨"email", oq⟩ raw hc hq]
  rcases Bool.eq_false_or_eq_true (_is_valid_email (py_strip raw)) with hv | hv
  · rw [dispatch_email_valid cfg cid ph now co w ⟨"email", oq⟩ _ _ rfl hv]
    refine ⟨_, rfl, ?_, fun h => by simp [h] at hv⟩
    simp [hv]
  · rw [dispatch_email_invalid cfg cid ph now co w ⟨"email", oq⟩ _ _ rfl hv]
    refine ⟨_, rfl, ?_, fun _ => ⟨rfl, rfl⟩⟩
    simp [hc, hv]

/-- Witness for the amended C6: "maria@x.com" advances, "skip" does not. -/
theorem C6_email_advances_iff_is_valid_email_witness :
    ∃ r : Handled,
      (webhook_receive ⟨"SHEET", "SA", true⟩ "c" "p" "t" (some ⟨"", "Página1"⟩)
        ⟨some ⟨"Maria", "", ""⟩,
         some ⟨"email", some ⟨1, "", "", false, false, "open"⟩⟩, 1⟩
        "maria@x.com").res = .ok r
      ∧ ((∃ oq', r.world.conv = some ⟨"produto", oq'⟩)
          ↔ _is_valid_email (py_strip "maria@x.com") = true)
      ∧ (_is_valid_email (py_strip "maria@x.com") = false →
          r.world = ⟨some ⟨"Maria", "", ""⟩,
            some ⟨"email", some ⟨1, "", "", false, false, "open"⟩⟩, 1⟩
          ∧ r.reply = replyEmailInvalid) :=
  C6_email_advances_iff_is_valid_email ⟨"SHEET", "SA", true⟩ "c" "p" "t" ⟨"", "Página1"⟩
    ⟨some ⟨"Maria", "", ""⟩, some ⟨"email", some ⟨1, "", "", false, false, "open"⟩⟩, 1⟩
    (some ⟨1, "", "", false, false, "open"⟩) "maria@x.com" rfl
    (by intro q h; rw [Option.some.injEq] at h; subst h; decide)

/-! ## Claim C7 -/

/-- C7 counterexample: at the name step, (a) the non-empty text "oi" (a
greeting) does not advance the conversation and stores nothing, and (b) the
name "maria da silva" is stored verbatim, not title-cased.  This falsifies
both the "every non-empty text advances" part and the "stores title-cased"
part of the claim. -/
theorem C7_counterexample :
    (∃ r : Handled,
      (webhook_receive ⟨"SHEET", "SA", true⟩ "c" "p" "t" (some ⟨"", "Página1"⟩)
        ⟨none, some ⟨"nome", some ⟨1, "", "", false, false, "open"⟩⟩, 1⟩ "oi").res = .ok r
      ∧ r.world.conv = some ⟨"nome", some ⟨1, "", "", false, false, "open"⟩⟩
      ∧ r.world.customer = none
      ∧ r.reply = replyAskName)
    ∧ (∃ r : Handled,
      (webhook_receive ⟨"SHEET", "SA", true⟩ "c" "p" "t" (some ⟨"", "Página1"⟩)
        ⟨none, some ⟨"nome", some ⟨1, "", "", false, false, "open"⟩⟩, 1⟩
        "maria da silva").res = .ok r
      ∧ r.world.customer = some ⟨"maria da silva", "", ""⟩
      ∧ "maria da silva" ≠ "Maria Da Silva") :=
  ⟨⟨_, rfl, rfl, rfl, rfl⟩, ⟨_, rfl, rfl, by decide⟩⟩

/-- C7 amended: at the name step, every non-empty, non-greeting text advances
the conversation to the email step and stores the name with its original
casing preserved (the stripped inbound text verbatim); lowercasing is used
only for the greeting comparison.  Empty texts and greetings re-prompt. -/
theorem C7_name_stored_with_original_casing (cfg : Config) (cid ph now : String)
    (co : Company) (w : World) (oq : Option Quote) (raw : String)
    (hc : w.conv = some ⟨"nome", oq⟩)
    (hq : ∀ q, oq = some q → q.status ≠ "pending_export")
    (hne : py_strip raw ≠ "") (hgr : py_lower (py_strip raw) ∉ greetings) :
    ∃ r : Handled,
      (webhook_receive cfg cid ph now (some co) w raw).res = .ok r
      ∧ r.world.conv = some ⟨"email", oq⟩
      ∧ r.world.customer = some
          ⟨py_strip raw,
           (match w.customer with | none => "" | some c0 => c0.email),
           (match w.customer with | none => "" | some c0 => c0.cep_padrao)⟩
      ∧ r.reply = replyPrazer (py_strip raw) := by
  rw [receive_eq_dispatch cfg cid ph now co w ⟨"nome", oq⟩ raw hc hq]
  simp only [dispatch, String.reduceEq, reduceIte, eq_self_iff_true, if_true]
  rw [if_neg (by simp [hne, hgr])]
  cases hcu : w.customer with
  | none => exact ⟨_, rfl, rfl, rfl, rfl⟩
  | some c0 => exact ⟨_, rfl, rfl, rfl, rfl⟩

/-- Witness for the amended C7 at the concrete name "Maria dos Santos". -/
theorem C7_name_stored_with_original_casing_witness :
    ∃ r : Handled,
      (webhook_receive ⟨"SHEET", "SA", true⟩ "c" "p" "t" (some ⟨"", "Página1"⟩)
        ⟨none, some ⟨"nome", some ⟨1, "", "", false, false, "open"⟩⟩, 1⟩
        "Maria dos Santos").res = .ok r
      ∧ r.world.conv = some ⟨"email", some ⟨1, "", "", false, false, "open"⟩⟩
      ∧ r.world.customer = some
          ⟨py_strip "Maria dos Santos",
           (match (none : Option Customer) with | none => "" | some c0 => c0.email),
           (match (none : Option Customer) with | none => "" | some c0 => c0.cep_padrao)⟩
      ∧ r.reply = replyPrazer (py_strip "Maria dos Santos") :=
  C7_name_stored_with_original_casing ⟨"SHEET", "SA", true⟩ "c" "p" "t" ⟨"", "Página1"⟩
    ⟨none, some ⟨"nome", some ⟨1, "", "", false, false, "open"⟩⟩, 1⟩
    (some ⟨1, "", "", false, false, "open"⟩) "Maria dos Santos" rfl
    (by intro q h; rw [Option.some.injEq] at h; subst h; decide)
    (by decide) (by decide)

/-! ## Claim C8 -/

/-- C8: if the persisted step value is outside the known set of states, the
handler raises no exception and treats the session as (re)starting: the
safety fallback moves the conversation to "produto" — exactly the step that
`reset_conversation` gives a freshly reset session — and asks the opening
product question. -/
theorem C8_unknown_step_treated_as_initial (cfg : Config) (cid ph now : String)
    (co : Company) (w : World) (conv : Conv) (raw : String)
    (hc : w.conv = some conv)
    (hq : ∀ q, conv.quote = some q → q.status ≠ "pending_export")
    (hunk : conv.step ∉ ["nome", "email", "produto", "cep_confirm", "cep",
      "cep_save", "export_retry"]) :
    ∃ r : Handled,
      (webhook_receive cfg cid ph now (some co) w raw).res = .ok r
      ∧ r.world = { w with conv := some ⟨"produto", conv.quote⟩ }
      ∧ r.reply = replyFallback
      ∧ (reset_conversation w).conv = some ⟨"produto", none⟩ := by
  have h7 : ¬conv.step = "nome" ∧ ¬conv.step = "email" ∧ ¬conv.step = "produto"
      ∧ ¬conv.step = "cep_confirm" ∧ ¬conv.step = "cep" ∧ ¬conv.step = "cep_save"
      ∧ ¬conv.step = "export_retry" := by
    simp only [List.mem_cons, List.not_mem_nil, or_false] at hunk
    push_neg at hunk
    exact ⟨hunk.1, hunk.2.1, hunk.2.2.1, hunk.2.2.2.1, hunk.2.2.2.2.1,
      hunk.2.2.2.2.2.1, hunk.2.2.2.2.2.2⟩
  rw [receive_eq_dispatch cfg cid ph now co w conv raw hc hq]
  rw [show dispatch cfg cid ph now co w conv (py_strip raw) (py_lower (py_strip raw))
      = fallback_return w (py_strip raw) by
    simp only [dispatch, h7.1, h7.2.1, h7.2.2.1, h7.2.2.2.1, h7.2.2.2.2.1,
      h7.2.2.2.2.2.1, h7.2.2.2.2.2.2, if_false]]
  refine ⟨_, rfl, ?_, rfl, ?_⟩
  · simp [fallback_return, hc]
  · simp [reset_conversation, hc]

/-- Witness for C8 at the corrupt persisted step value "garbage". -/
theorem C8_unknown_step_treated_as_initial_witness :
    ∃ r : Handled,
      (webhook_receive ⟨"SHEET", "SA", true⟩ "c" "p" "t" (some ⟨"", "Página1"⟩)
        ⟨none, some ⟨"garbage", some ⟨1, "iPhone", "", false, false, "open"⟩⟩, 1⟩
        "oi").res = .ok r
      ∧ r.world = ⟨none, some ⟨"produto", some ⟨1, "iPhone", "", false, false, "open"⟩⟩, 1⟩
      ∧ r.reply = replyFallback
      ∧ (reset_conversation
          ⟨none, some ⟨"garbage", some ⟨1, "iPhone", "", false, false, "open"⟩⟩, 1⟩).conv
          = some ⟨"produto", none⟩ :=
  C8_unknown_step_treated_as_initial ⟨"SHEET", "SA", true⟩ "c" "p" "t" ⟨"", "Página1"⟩
    ⟨none, some ⟨"garbage", some ⟨1, "iPhone", "", false, false, "open"⟩⟩, 1⟩
    ⟨"garbage", some ⟨1, "iPhone", "", false, false, "open"⟩⟩ "oi" rfl
    (by intro q h; rw [Option.some.injEq] at h; subst h; decide) (by decide)

/-! ## The human reply templates, and shape lemmas for the whole handler -/

/-- Replies of `webhook_receive` that are fixed literals. -/
def fixed_replies : List String :=
  [replyAskName, replyHelloAskName, replyPendingOk, replyPendingFail,
   replyEmailInvalid, replyEmailOk, replyAskProduct, replyAskCep,
   replyNoDefaultCep, replyCepInvalidConfirm, replyCepInvalid, replyYesOrNo,
   replyContinue, replyExportFail, replyFallback]

/-- A string is a human-authored reply: one of the fixed reply literals, or an
instance of one of the parameterized reply templates.  No exception text is in
this set. -/
def HumanReply (s : String) : Prop :=
  s ∈ fixed_replies
  ∨ (∃ n, s = replyGreetReturning n)
  ∨ (∃ n, s = replyPrazer n)
  ∨ (∃ n, s = replyAskProductNamed n)
  ∨ (∃ c, s = replyCepConfirm c)
  ∨ (∃ c, s = replyCepSaveAsk c)
  ∨ (∃ n p, s = replyDone n p)

lemma hr_fixed {s : String} (h : s ∈ fixed_replies) : HumanReply s := Or.inl h

lemma hr_greet (n : String) : HumanReply (replyGreetReturning n) :=
  Or.inr (Or.inl ⟨n, rfl⟩)

lemma hr_prazer (n : String) : HumanReply (replyPrazer n) :=
  Or.inr (Or.inr (Or.inl ⟨n, rfl⟩))

lemma hr_namedProduct (n : String) : HumanReply (replyAskProductNamed n) :=
  Or.inr (Or.inr (Or.inr (Or.inl ⟨n, rfl⟩)))

lemma hr_cepConfirm (c : String) : HumanReply (replyCepConfirm c) :=
  Or.inr (Or.inr (Or.inr (Or.inr (Or.inl ⟨c, rfl⟩))))

lemma hr_cepSave (c : String) : HumanReply (replyCepSaveAsk c) :=
  Or.inr (Or.inr (Or.inr (Or.inr (Or.inr (Or.inl ⟨c, rfl⟩)))))

lemma hr_done (n p : String) : HumanReply (replyDone n p) :=
  Or.inr (Or.inr (Or.inr (Or.inr (Or.inr (Or.inr ⟨n, p, rfl⟩)))))

-- Case analysis of the step dispatch: either a normal return — whose log is
-- exactly the inbound and outbound text, whose reply is a human template, and
-- which clears the quote link of an existing conversation only after a
-- successful sheet append (when Sheets is configured) — or one of the two
-- exception exits, which can only fire with a missing customer row or a
-- missing quote link.
set_option maxRecDepth 8192 in
lemma dispatch_cases (cfg : Config) (cid ph now : String) (co : Company)
    (w : World) (conv : Conv) (text lower : String)
    (hwc : w.conv = some conv) :
    (∃ rep w' es ex, dispatch cfg cid ph now co w conv text lower
        = ⟨[("in", text), ("out", rep)], .ok ⟨rep, w', es, ex⟩⟩
      ∧ HumanReply rep
      ∧ (conv.quote ≠ none → sheets_configured cfg co = true →
          w'.conv = some ⟨"produto", none⟩ → ex ≠ none))
    ∨ (∃ e, dispatch cfg cid ph now co w conv text lower
        = ⟨[("in", text)], .error e⟩
      ∧ (e = "AttributeError" ∨ e = "quote não encontrada")
      ∧ (w.customer = none ∨ conv.quote = none)) := by
  by_cases h1 : conv.step = "nome"
  · simp only [dispatch, h1, String.reduceEq, reduceIte, eq_self_iff_true, if_true]
    repeat' split
    all_goals first
      | (refine Or.inl ⟨_, _, _, _, rfl, ?_, ?_⟩ <;>
          first
            | exact hr_prazer _
            | exact hr_namedProduct _
            | exact hr_cepConfirm _
            | exact hr_cepSave _
            | exact hr_done _ _
            | exact hr_greet _
            | exact hr_fixed (by decide)
            | (intro hqn hcf hres; exact Option.some_ne_none _)
            | (intro hqn hcf hres; rw [hwc] at hres; injection hres with hres2;
               exact absurd (by rw [hres2]) hqn)
            | (intro hqn hcf hres; simp at hres; exact absurd hres hqn)
            | (intro hqn hcf hres; simp at hres; done)
            | (intro hqn hcf hres; simp_all; done))
      | (refine Or.inr ⟨_, rfl, ?_, ?_⟩ <;>
          first
            | exact Or.inl rfl
            | exact Or.inr rfl
            | (left; assumption)
            | (right; assumption))
  by_cases h2 : conv.step = "email"
  · simp only [dispatch, h2, String.reduceEq, reduceIte, eq_self_iff_true, if_true]
    repeat' split
    all_goals first
      | (refine Or.inl ⟨_, _, _, _, rfl, ?_, ?_⟩ <;>
          first
            | exact hr_prazer _
            | exact hr_namedProduct _
            | exact hr_cepConfirm _
            | exact hr_cepSave _
            | exact hr_done _ _
            | exact hr_greet _
            | exact hr_fixed (by decide)
            | (intro hqn hcf hres; exact Option.some_ne_none _)
            | (intro hqn hcf hres; rw [hwc] at hres; injection hres with hres2;
               exact absurd (by rw [hres2]) hqn)
            | (intro hqn hcf hres; simp at hres; exact absurd hres hqn)
            | (intro hqn hcf hres; simp at hres; done)
            | (intro hqn hcf hres; simp_all; done))
      | (refine Or.inr ⟨_, rfl, ?_, ?_⟩ <;>
          first
            | exact Or.inl rfl
            | exact Or.inr rfl
            | (left; assumption)
            | (right; assumption))
  by_cases h3 : conv.step = "produto"
  · simp only [dispatch, h3, String.reduceEq, reduceIte, eq_self_iff_true, if_true]
    repeat' split
    all_goals first
      | (refine Or.inl ⟨_, _, _, _, rfl, ?_, ?_⟩ <;>
          first
            | exact hr_prazer _
            | exact hr_namedProduct _
            | exact hr_cepConfirm _
            | exact hr_cepSave _
            | exact hr_done _ _
            | exact hr_greet _
            | exact hr_fixed (by decide)
            | (intro hqn hcf hres; exact Option.some_ne_none _)
            | (intro hqn hcf hres; rw [hwc] at hres; injection hres with hres2;
               exact absurd (by rw [hres2]) hqn)
            | (intro hqn hcf hres; simp at hres; exact absurd hres hqn)
            | (intro hqn hcf hres; simp at hres; done)
            | (intro hqn hcf hres; simp_all; done))
      | (refine Or.inr ⟨_, rfl, ?_, ?_⟩ <;>
          first
            | exact Or.inl rfl
            | exact Or.inr rfl
            | (left; assumption)
            | (right; assumption))
  by_cases h4 : conv.step = "cep_confirm"
  · simp only [dispatch, h4, String.reduceEq, reduceIte, eq_self_iff_true, if_true]
    repeat' split
    all_goals first
      | (refine Or.inl ⟨_, _, _, _, rfl, ?_, ?_⟩ <;>
          first
            | exact hr_prazer _
            | exact hr_namedProduct _
            | exact hr_cepConfirm _
            | exact hr_cepSave _
            | exact hr_done _ _
            | exact hr_greet _
            | exact hr_fixed (by decide)
            | (intro hqn hcf hres; exact Option.some_ne_none _)
            | (intro hqn hcf hres; rw [hwc] at hres; injection hres with hres2;
               exact absurd (by rw [hres2]) hqn)
            | (intro hqn hcf hres; simp at hres; exact absurd hres hqn)
            | (intro hqn hcf hres; simp at hres; done)
            | (intro hqn hcf hres; simp_all; done))
      | (refine Or.inr ⟨_, rfl, ?_, ?_⟩ <;>
          first
            | exact Or.inl rfl
            | exact Or.inr rfl
            | (left; assumption)
            | (right; assumption))
  by_cases h5 : conv.step = "cep"
  · simp only [dispatch, h5, String.reduceEq, reduceIte, eq_self_iff_true, if_true]
    repeat' split
    all_goals first
      | (refine Or.inl ⟨_, _, _, _, rfl, ?_, ?_⟩ <;>
          first
            | exact hr_prazer _
            | exact hr_namedProduct _
            | exact hr_cepConfirm _
            | exact hr_cepSave _
            | exact hr_done _ _
            | exact hr_greet _
            | exact hr_fixed (by decide)
            | (intro hqn hcf hres; exact Option.some_ne_none _)
            | (intro hqn hcf hres; rw [hwc] at hres; injection hres with hres2;
               exact absurd (by rw [hres2]) hqn)
            | (intro hqn hcf hres; simp at hres; exact absurd hres hqn)
            | (intro hqn hcf hres; simp at hres; done)
            | (intro hqn hcf hres; simp_all; done))
      | (refine Or.inr ⟨_, rfl, ?_, ?_⟩ <;>
          first
            | exact Or.inl rfl
            | exact Or.inr rfl
            | (left; assumption)
            | (right; assumption))
  by_cases h6 : conv.step = "cep_save"
  · simp only [dispatch, h6, String.reduceEq, reduceIte, eq_self_iff_true, if_true]
    repeat' split
    all_goals first
      | (refine Or.inl ⟨_, _, _, _, rfl, ?_, ?_⟩ <;>
          first
            | exact hr_prazer _
            | exact hr_namedProduct _
            | exact hr_cepConfirm _
            | exact hr_cepSave _
            | exact hr_done _ _
            | exact hr_greet _
            | exact hr_fixed (by decide)
            | (intro hqn hcf hres; exact Option.some_ne_none _)
            | (intro hqn hcf hres; rw [hwc] at hres; injection hres with hres2;
               exact absurd (by rw [hres2]) hqn)
            | (intro hqn hcf hres; simp at hres; exact absurd hres hqn)
            | (intro hqn hcf hres; simp at hres; done)
            | (intro hqn hcf hres; simp_all; done))
      | (refine Or.inr ⟨_, rfl, ?_, ?_⟩ <;>
          first
            | exact Or.inl rfl
            | exact Or.inr rfl
            | (left; assumption)
            | (right; assumption))
  by_cases h7 : conv.step = "export_retry"
  · simp only [dispatch, h7, String.reduceEq, reduceIte, eq_self_iff_true, if_true]
    repeat' split
    all_goals first
      | (refine Or.inl ⟨_, _, _, _, rfl, ?_, ?_⟩ <;>
          first
            | exact hr_prazer _
            | exact hr_namedProduct _
            | exact hr_cepConfirm _
            | exact hr_cepSave _
            | exact hr_done _ _
            | exact hr_greet _
            | exact hr_fixed (by decide)
            | (intro hqn hcf hres; exact Option.some_ne_none _)
            | (intro hqn hcf hres; rw [hwc] at hres; injection hres with hres2;
               exact absurd (by rw [hres2]) hqn)
            | (intro hqn hcf hres; simp at hres; exact absurd hres hqn)
            | (intro hqn hcf hres; simp at hres; done)
            | (intro hqn hcf hres; simp_all; done))
      | (refine Or.inr ⟨_, rfl, ?_, ?_⟩ <;>
          first
            | exact Or.inl rfl
            | exact Or.inr rfl
            | (left; assumption)
            | (right; assumption))
  · simp only [dispatch, fallback_return, h1, h2, h3, h4, h5, h6, h7, if_false]
    refine Or.inl ⟨_, _, _, _, rfl, hr_fixed (by decide), ?_⟩
    intro hqn hcf hres
    rw [hwc] at hres
    simp at hres
    exact absurd hres hqn

-- Case analysis of the whole handler (with an existing company row): either a
-- normal return — log mirroring the exchange, human-template reply, quote
-- link of an existing conversation cleared only after a successful append —
-- or one of the two exception exits, possible only with a missing customer
-- row or a missing quote link.
lemma receive_cases (cfg : Config) (cid ph now : String) (co : Company)
    (w : World) (raw : String) :
    (∃ rep w' es ex, webhook_receive cfg cid ph now (some co) w raw
        = ⟨[("in", py_strip raw), ("out", rep)], .ok ⟨rep, w', es, ex⟩⟩
      ∧ HumanReply rep
      ∧ (∀ c, w.conv = some c → c.quote ≠ none → sheets_configured cfg co = true →
          w'.conv = some ⟨"produto", none⟩ → ex ≠ none))
    ∨ (∃ e, webhook_receive cfg cid ph now (some co) w raw
        = ⟨[("in", py_strip raw)], .error e⟩
      ∧ (e = "AttributeError" ∨ e = "quote não encontrada")
      ∧ (w.customer = none ∨ ∃ c, w.conv = some c ∧ c.quote = none)) := by
  have use_dispatch : ∀ conv, w.conv = some conv →
      webhook_receive cfg cid ph now (some co) w raw
        = dispatch cfg cid ph now co w conv (py_strip raw) (py_lower (py_strip raw)) →
      (∃ rep w' es ex, webhook_receive cfg cid ph now (some co) w raw
          = ⟨[("in", py_strip raw), ("out", rep)], .ok ⟨rep, w', es, ex⟩⟩
        ∧ HumanReply rep
        ∧ (∀ c, w.conv = some c → c.quote ≠ none → sheets_configured cfg co = true →
            w'.conv = some ⟨"produto", none⟩ → ex ≠ none))
      ∨ (∃ e, webhook_receive cfg cid ph now (some co) w raw
          = ⟨[("in", py_strip raw)], .error e⟩
        ∧ (e = "AttributeError" ∨ e = "quote não encontrada")
        ∧ (w.customer = none ∨ ∃ c, w.conv = some c ∧ c.quote = none)) := by
    intro conv hwc heq
    rcases dispatch_cases cfg cid ph now co w conv (py_strip raw)
        (py_lower (py_strip raw)) hwc with
      ⟨rep, w', es, ex, hd, hh, himp⟩ | ⟨e, hd, he, hcond⟩
    · refine Or.inl ⟨rep, w', es, ex, by rw [heq, hd], hh, ?_⟩
      intro c hc hqn hcf hres
      rw [hwc] at hc
      injection hc with hc
      exact himp (hc ▸ hqn) hcf hres
    · refine Or.inr ⟨e, by rw [heq, hd], he, ?_⟩
      rcases hcond with h | h
      · exact Or.inl h
      · exact Or.inr ⟨conv, hwc, h⟩
  cases hcv : w.conv with
  | none =>
    cases hcu : w.customer with
    | none =>
      simp only [webhook_receive, hcv, hcu, customer_is_complete,
        Bool.false_eq_true, if_false]
      split
      · exact Or.inl ⟨_, _, _, _, rfl, hr_fixed (by decide),
          fun c hc => nomatch hc⟩
      · exact Or.inl ⟨_, _, _, _, rfl, hr_fixed (by decide),
          fun c hc => nomatch hc⟩
    | some cust =>
      by_cases hcc : customer_is_complete (some cust) = true
      · simp only [webhook_receive, hcv, hcu, hcc, eq_self_iff_true, if_true]
        exact Or.inl ⟨_, _, _, _, rfl, hr_greet _,
          fun c hc => nomatch hc⟩
      · simp only [webhook_receive, hcv, hcu,
          Bool.not_eq_true _ ▸ hcc, Bool.false_eq_true, if_false]
        split
        · exact Or.inl ⟨_, _, _, _, rfl, hr_fixed (by decide),
            fun c hc => nomatch hc⟩
        · exact Or.inl ⟨_, _, _, _, rfl, hr_fixed (by decide),
            fun c hc => nomatch hc⟩
  | some conv =>
    rw [← hcv]
    cases hcq : conv.quote with
    | none =>
      refine use_dispatch conv hcv ?_
      simp only [webhook_receive, hcv, hcq]
    | some q =>
      by_cases hst : q.status = "pending_export"
      · by_cases hcf : sheets_configured cfg co = true
        · rcases Bool.eq_false_or_eq_true cfg.exportOk with he | he
          · -- export succeeds on retry
            simp only [webhook_receive, hcv, hcq, hst, eq_self_iff_true, if_true,
              hcf, he]
            exact Or.inl ⟨_, _, _, _, rfl, hr_fixed (by decide),
              fun c hc hqn hcf2 hres => Option.some_ne_none _⟩
          · -- export fails again on retry: state untouched
            simp only [webhook_receive, hcv, hcq, hst, eq_self_iff_true, if_true,
              hcf, he, Bool.false_eq_true, if_false]
            refine Or.inl ⟨_, _, _, _, rfl, hr_fixed (by decide), ?_⟩
            intro c hc hqn hcf2 hres
            rw [hcv] at hres
            injection hres with hres
            injection hc with hc
            rw [← hc] at hqn
            exact absurd (by rw [hres]) hqn
        · refine use_dispatch conv hcv ?_
          simp only [webhook_receive, hcv, hcq, hst, eq_self_iff_true, if_true,
            hcf, Bool.false_eq_true, if_false]
      · refine use_dispatch conv hcv ?_
        simp only [webhook_receive, hcv, hcq, hst, if_false]

-- Evaluation of the export_retry dispatch branch when the sheet append fails:
-- the quote is marked pending_export, the conversation is kept, and the
-- "try again later" reply is returned.
lemma dispatch_export_retry_fail (cfg : Config) (cid ph now : String) (co : Company)
    (w : World) (conv : Conv) (q : Quote) (text lower : String)
    (hs : conv.step = "export_retry") (hcq : conv.quote = some q)
    (hnome : (w.customer.getD emptyCustomer).nome ≠ "")
    (hemail : (w.customer.getD emptyCustomer).email ≠ "")
    (hprod : q.produto ≠ "") (hcep : q.cep_usado ≠ "")
    (hcf : sheets_configured cfg co = true) (hexp : cfg.exportOk = false) :
    dispatch cfg cid ph now co w conv text lower
      = ⟨[("in", text), ("out", replyExportFail)],
         .ok ⟨replyExportFail,
              { w with conv := some { conv with
                  quote := some { q with status := "pending_export" } } },
              some "failed", none⟩⟩ := by
  simp only [dispatch, hs, String.reduceEq, reduceIte, eq_self_iff_true, if_true, hcq]
  rw [if_neg (by simp [hnome, hemail, hprod, hcep])]
  rw [if_neg (by simp [hcf])]
  rw [if_neg (by simp [hexp])]
  rfl

-- Evaluation of the pending_export retry block: with Sheets configured, any
-- inbound message first re-attempts the export; on success the quote is
-- completed, the conversation reset and the confirmation sent; on failure
-- nothing is touched and the "still failing" reply is sent.  The outcome does
-- not depend on the inbound text beyond logging it.
lemma receive_pending_retry (cfg : Config) (cid ph now : String) (co : Company)
    (w : World) (conv : Conv) (q : Quote) (raw : String)
    (hc : w.conv = some conv) (hcq : conv.quote = some q)
    (hst : q.status = "pending_export") (hcf : sheets_configured cfg co = true) :
    webhook_receive cfg cid ph now (some co) w raw
      = if cfg.exportOk then
          ⟨[("in", py_strip raw), ("out", replyPendingOk)],
           .ok ⟨replyPendingOk,
                { w with conv := some ⟨"produto", none⟩ },
                some "ok",
                some (sheet_row cid ph now "true" (w.customer.getD emptyCustomer) q)⟩⟩
        else
          ⟨[("in", py_strip raw), ("out", replyPendingFail)],
           .ok ⟨replyPendingFail, w, some "failed", none⟩⟩ := by
  rcases Bool.eq_false_or_eq_true cfg.exportOk with he | he <;>
    simp only [webhook_receive, hc, hcq, hst, eq_self_iff_true, if_true, hcf, he,
      Bool.false_eq_true, if_false, if_true, reset_conversation,
      Option.map_some, List.singleton_append] <;>
    rfl

/-! ## Claim C3 -/

/-- C3: if the sheet export fails at the hand-off (`export_retry`) step, the
quote is marked "pending_export" — not completed — with the conversation and
all stored answers kept; and any subsequent inbound message, whatever its
text, re-attempts the export before any step-specific processing: the retry
outcome does not depend on the new text, and on success the appended sheet
row is built from the same stored customer fields and quote fields. -/
theorem C3_failed_handoff_stays_pending_and_retries (cfg : Config)
    (cid ph now : String) (co : Company) (w : World) (q : Quote) (raw : String)
    (hc : w.conv = some ⟨"export_retry", some q⟩)
    (hst : q.status ≠ "pending_export")
    (hnome : (w.customer.getD emptyCustomer).nome ≠ "")
    (hemail : (w.customer.getD emptyCustomer).email ≠ "")
    (hprod : q.produto ≠ "") (hcep : q.cep_usado ≠ "")
    (hcf : sheets_configured cfg co = true) (hexp : cfg.exportOk = false) :
    ∃ r : Handled,
      (webhook_receive cfg cid ph now (some co) w raw).res = .ok r
      ∧ r.exportStatus = some "failed"
      ∧ r.world = { w with conv := some ⟨"export_retry",
            some { q with status := "pending_export" }⟩ }
      ∧ r.world.customer = w.customer
      ∧ (∀ (cfg2 : Config) (now2 raw2 : String), sheets_configured cfg2 co = true →
          webhook_receive cfg2 cid ph now2 (some co) r.world raw2
            = if cfg2.exportOk then
                ⟨[("in", py_strip raw2), ("out", replyPendingOk)],
                 .ok ⟨replyPendingOk,
                      { r.world with conv := some ⟨"produto", none⟩ },
                      some "ok",
                      some (sheet_row cid ph now2 "true"
                        (w.customer.getD emptyCustomer)
                        { q with status := "pending_export" })⟩⟩
              else
                ⟨[("in", py_strip raw2), ("out", replyPendingFail)],
                 .ok ⟨replyPendingFail, r.world, some "failed", none⟩⟩) := by
  rw [receive_eq_dispatch cfg cid ph now co w ⟨"export_retry", some q⟩ raw hc
    (by intro q2 h2; injection h2 with h2; rw [← h2]; exact hst)]
  rw [dispatch_export_retry_fail cfg cid ph now co w ⟨"export_retry", some q⟩ q _ _
    rfl rfl hnome hemail hprod hcep hcf hexp]
  refine ⟨_, rfl, rfl, rfl, rfl, ?_⟩
  intro cfg2 now2 raw2 hcf2
  exact receive_pending_retry cfg2 cid ph now2 co _
    ⟨"export_retry", some { q with status := "pending_export" }⟩
    { q with status := "pending_export" } raw2 rfl rfl rfl hcf2

/-- Witness for C3: a failed export leaves the quote pending, and the next
(unrelated) message "thanks" triggers the retry, exporting the same answers. -/
theorem C3_failed_handoff_stays_pending_and_retries_witness :
    ∃ r : Handled,
      (webhook_receive ⟨"SHEET", "SA", false⟩ "c" "p" "t" (some ⟨"", "Página1"⟩)
        ⟨some ⟨"Maria", "m@x.com", "01001-000"⟩,
         some ⟨"export_retry", some ⟨2, "iPhone", "01001-000", false, true, "open"⟩⟩, 2⟩
        "go").res = .ok r
      ∧ r.exportStatus = some "failed"
      ∧ r.world = { (⟨some ⟨"Maria", "m@x.com", "01001-000"⟩,
            some ⟨"export_retry", some ⟨2, "iPhone", "01001-000", false, true, "open"⟩⟩, 2⟩ : World)
            with conv := some ⟨"export_retry",
            some { (⟨2, "iPhone", "01001-000", false, true, "open"⟩ : Quote)
              with status := "pending_export" }⟩ }
      ∧ r.world.customer = some ⟨"Maria", "m@x.com", "01001-000"⟩
      ∧ (∀ (cfg2 : Config) (now2 raw2 : String),
          sheets_configured cfg2 (⟨"", "Página1"⟩ : Company) = true →
          webhook_receive cfg2 "c" "p" now2 (some ⟨"", "Página1"⟩) r.world raw2
            = if cfg2.exportOk then
                ⟨[("in", py_strip raw2), ("out", replyPendingOk)],
                 .ok ⟨replyPendingOk,
                      { r.world with conv := some ⟨"produto", none⟩ },
                      some "ok",
                      some (sheet_row "c" "p" now2 "true"
                        ((some (⟨"Maria", "m@x.com", "01001-000"⟩ : Customer)).getD emptyCustomer)
                        { (⟨2, "iPhone", "01001-000", false, true, "open"⟩ : Quote)
                          with status := "pending_export" })⟩⟩
              else
                ⟨[("in", py_strip raw2), ("out", replyPendingFail)],
                 .ok ⟨replyPendingFail, r.world, some "failed", none⟩⟩) :=
  C3_failed_handoff_stays_pending_and_retries ⟨"SHEET", "SA", false⟩ "c" "p" "t"
    ⟨"", "Página1"⟩
    ⟨some ⟨"Maria", "m@x.com", "01001-000"⟩,
     some ⟨"export_retry", some ⟨2, "iPhone", "01001-000", false, true, "open"⟩⟩, 2⟩
    ⟨2, "iPhone", "01001-000", false, true, "open"⟩ "go"
    rfl (by decide) (by decide) (by decide) (by decide) (by decide) (by decide) rfl

/-! ## Claim C4 -/

/-- C4: with Sheets configured and a conversation holding a quote in progress
and a stored customer, the handler never resets the session (step "produto"
with the quote link cleared — the state `reset_conversation` produces) unless
a sheet row was actually appended on this very request; and from a pending
hand-off state, a later successful export completes with the fixed
confirmation reply and the reset session — no questionnaire question is
re-asked. -/
theorem C4_session_not_reset_before_sink_success (cfg : Config)
    (cid ph now : String) (co : Company) (w : World) (conv : Conv) (q : Quote)
    (cust : Customer) (raw : String)
    (hc : w.conv = some conv) (hcq : conv.quote = some q)
    (hcu : w.customer = some cust)
    (hcf : sheets_configured cfg co = true) :
    (∃ r : Handled,
      (webhook_receive cfg cid ph now (some co) w raw).res = .ok r
      ∧ (r.world.conv = some ⟨"produto", none⟩ → r.exported ≠ none))
    ∧ (q.status = "pending_export" → cfg.exportOk = true →
        ∃ r : Handled,
          (webhook_receive cfg cid ph now (some co) w raw).res = .ok r
          ∧ r.reply = replyPendingOk
          ∧ r.world.conv = some ⟨"produto", none⟩
          ∧ r.exported = some (sheet_row cid ph now "true" cust q)) := by
  constructor
  · rcases receive_cases cfg cid ph now co w raw with
      ⟨rep, w', es, ex, heq, _, himp⟩ | ⟨e, heq, _, hcond⟩
    · refine ⟨⟨rep, w', es, ex⟩, by rw [heq], ?_⟩
      intro hres
      exact himp conv hc (by rw [hcq]; exact Option.some_ne_none q) hcf hres
    · exfalso
      rcases hcond with h | ⟨c, hc2, hq2⟩
      · rw [hcu] at h; cases h
      · rw [hc] at hc2
        injection hc2 with hc2
        rw [← hc2] at hq2
        rw [hcq] at hq2
        cases hq2
  · intro hst he
    rw [receive_pending_retry cfg cid ph now co w conv q raw hc hcq hst hcf]
    rw [if_pos he]
    refine ⟨_, rfl, rfl, rfl, ?_⟩
    rw [hcu]
    rfl

/-- Witness for C4 at a concrete pending state with a successful export. -/
theorem C4_session_not_reset_before_sink_success_witness :
    (∃ r : Handled,
      (webhook_receive ⟨"SHEET", "SA", true⟩ "c" "p" "t" (some ⟨"", "Página1"⟩)
        ⟨some ⟨"Maria", "m@x.com", "01001-000"⟩,
         some ⟨"export_retry",
           some ⟨2, "iPhone", "01001-000", false, true, "pending_export"⟩⟩, 2⟩
        "hello").res = .ok r
      ∧ (r.world.conv = some ⟨"produto", none⟩ → r.exported ≠ none))
    ∧ ((⟨2, "iPhone", "01001-000", false, true, "pending_export"⟩ : Quote).status
          = "pending_export" →
        (⟨"SHEET", "SA", true⟩ : Config).exportOk = true →
        ∃ r : Handled,
          (webhook_receive ⟨"SHEET", "SA", true⟩ "c" "p" "t" (some ⟨"", "Página1"⟩)
            ⟨some ⟨"Maria", "m@x.com", "01001-000"⟩,
             some ⟨"export_retry",
               some ⟨2, "iPhone", "01001-000", false, true, "pending_export"⟩⟩, 2⟩
            "hello").res = .ok r
          ∧ r.reply = replyPendingOk
          ∧ r.world.conv = some ⟨"produto", none⟩
          ∧ r.exported = some (sheet_row "c" "p" "t" "true"
              ⟨"Maria", "m@x.com", "01001-000"⟩
              ⟨2, "iPhone", "01001-000", false, true, "pending_export"⟩)) :=
  C4_session_not_reset_before_sink_success ⟨"SHEET", "SA", true⟩ "c" "p" "t"
    ⟨"", "Página1"⟩
    ⟨some ⟨"Maria", "m@x.com", "01001-000"⟩,
     some ⟨"export_retry",
       some ⟨2, "iPhone", "01001-000", false, true, "pending_export"⟩⟩, 2⟩
    ⟨"export_retry", some ⟨2, "iPhone", "01001-000", false, true, "pending_export"⟩⟩
    ⟨2, "iPhone", "01001-000", false, true, "pending_export"⟩
    ⟨"Maria", "m@x.com", "01001-000"⟩ "hello" rfl rfl rfl (by decide)

/-! ## Claim C9 -/

/-- C9: every reply the handler ever returns is drawn from the human-authored
template set, and the only exception exits are the two fixed handwritten
HTTPException details and the corrupt-state-only AttributeError — no
execution path lets raw exception or stack-trace text become the reply or
replace it. -/
theorem C9_reply_is_always_human_template (cfg : Config) (cid ph now : String)
    (company : Option Company) (w : World) (raw : String) :
    (∀ r : Handled, (webhook_receive cfg cid ph now company w raw).res = .ok r →
        HumanReply r.reply)
    ∧ (∀ e, (webhook_receive cfg cid ph now company w raw).res = .error e →
        e = "company_id não encontrado" ∨ e = "AttributeError"
          ∨ e = "quote não encontrada") := by
  cases company with
  | none =>
    constructor
    · intro r h
      have h2 : HandlerRes.error "company_id não encontrado" = HandlerRes.ok r := h
      cases h2
    · intro e h
      have h2 : HandlerRes.error "company_id não encontrado" = HandlerRes.error e := h
      injection h2 with h2
      exact Or.inl h2.symm
  | some co =>
    rcases receive_cases cfg cid ph now co w raw with
      ⟨rep, w', es, ex, heq, hh, _⟩ | ⟨e0, heq, he, _⟩
    · constructor
      · intro r h
        rw [heq] at h
        have h2 : HandlerRes.ok ⟨rep, w', es, ex⟩ = HandlerRes.ok r := h
        injection h2 with h2
        rw [← h2]
        exact hh
      · intro e h
        rw [heq] at h
        have h2 : HandlerRes.ok ⟨rep, w', es, ex⟩ = HandlerRes.error e := h
        cases h2
    · constructor
      · intro r h
        rw [heq] at h
        have h2 : HandlerRes.error e0 = HandlerRes.ok r := h
        cases h2
      · intro e h
        rw [heq] at h
        have h2 : HandlerRes.error e0 = HandlerRes.error e := h
        injection h2 with h2
        rw [← h2]
        rcases he with he | he
        · exact Or.inr (Or.inl he)
        · exact Or.inr (Or.inr he)

/-- Witness for C9: a concrete run whose reply is the name prompt, which is in
the human template set. -/
theorem C9_reply_is_always_human_template_witness :
    HumanReply (Handled.reply ⟨replyAskName,
      ⟨none, some ⟨"nome", some ⟨1, "", "", false, false, "open"⟩⟩, 1⟩, none, none⟩) :=
  (C9_reply_is_always_human_template ⟨"SHEET", "SA", true⟩ "c" "p" "t"
    (some ⟨"", "Página1"⟩)
    ⟨none, some ⟨"nome", some ⟨1, "", "", false, false, "open"⟩⟩, 1⟩ "oi").1
    ⟨replyAskName, ⟨none, some ⟨"nome", some ⟨1, "", "", false, false, "open"⟩⟩, 1⟩,
     none, none⟩ rfl

/-! ## Claim C10 -/

/-- C10 counterexample: when the URL's company_id resolves to no company row,
`get_company` raises before `log_message` runs: the sender and text were
extracted, but no "in" row is logged at all (the log is empty), falsifying
the claim for that path. -/
theorem C10_counterexample :
    webhook_receive ⟨"SHEET", "SA", true⟩ "c" "p" "t" none ⟨none, none, 0⟩ "oi"
      = ⟨[], .error "company_id não encontrado"⟩ := rfl

/-- C10 amended: for every inbound message whose company_id resolves to an
existing company row, exactly one "in" row with the stripped text is logged
before dispatch, and every reply the handler returns is logged as an "out"
row before returning — on the exception paths the log holds exactly the "in"
row and no reply exists. -/
theorem C10_message_log_mirrors_conversation (cfg : Config) (cid ph now : String)
    (co : Company) (w : World) (raw : String) :
    (∀ (rep : String) (w' : World) (es : Option String) (ex : Option (List String)),
        (webhook_receive cfg cid ph now (some co) w raw).res = .ok ⟨rep, w', es, ex⟩ →
        (webhook_receive cfg cid ph now (some co) w raw).log
          = [("in", py_strip raw), ("out", rep)])
    ∧ (∀ e, (webhook_receive cfg cid ph now (some co) w raw).res = .error e →
        (webhook_receive cfg cid ph now (some co) w raw).log
          = [("in", py_strip raw)]) := by
  rcases receive_cases cfg cid ph now co w raw with
    ⟨rep, w', es, ex, heq, _, _⟩ | ⟨e0, heq, _, _⟩
  · constructor
    · intro rep2 w2 es2 ex2 h
      rw [heq] at h ⊢
      have h2 : HandlerRes.ok ⟨rep, w', es, ex⟩ = HandlerRes.ok ⟨rep2, w2, es2, ex2⟩ := h
      injection h2 with h2
      have h3 : rep = rep2 := congrArg Handled.reply h2
      show [("in", py_strip raw), ("out", rep)] = [("in", py_strip raw), ("out", rep2)]
      rw [h3]
    · intro e h
      rw [heq] at h
      have h2 : HandlerRes.ok ⟨rep, w', es, ex⟩ = HandlerRes.error e := h
      cases h2
  · constructor
    · intro rep2 w2 es2 ex2 h
      rw [heq] at h
      have h2 : HandlerRes.error e0 = HandlerRes.ok ⟨rep2, w2, es2, ex2⟩ := h
      cases h2
    · intro e h
      rw [heq]

/-- Witness for the amended C10: a concrete run logs exactly the inbound text
and the reply. -/
theorem C10_message_log_mirrors_conversation_witness :
    (webhook_receive ⟨"SHEET", "SA", true⟩ "c" "p" "t" (some ⟨"", "Página1"⟩)
      ⟨none, some ⟨"nome", some ⟨1, "", "", false, false, "open"⟩⟩, 1⟩ "oi").log
      = [("in", py_strip "oi"), ("out", replyAskName)] :=
  (C10_message_log_mirrors_conversation ⟨"SHEET", "SA", true⟩ "c" "p" "t"
    ⟨"", "Página1"⟩
    ⟨none, some ⟨"nome", some ⟨1, "", "", false, false, "open"⟩⟩, 1⟩ "oi").1
    replyAskName ⟨none, some ⟨"nome", some ⟨1, "", "", false, false, "open"⟩⟩, 1⟩
    none none rfl

end App
